import Mathlib

/-!
# Verification of the client-side data-table / task-list query engine

Shallow embedding of the filtering, searching, sorting, grouping and
pagination logic found in

* `src/components/tambo/data-table.tsx` (`sortedData`, `filteredData`,
  pagination footer),
* `src/components/tambo/task-list.tsx` (`groupTasks`, `filterTasks`,
  `getPriorityOrder`, `getStatusOrder`, `sortedGroupKeys`),
* `src/components/tambo/linear-issue-list.tsx` (`groupIssues`),
* `src/components/tambo/kanban-board.tsx` (`statusToColumn`, `tasksByColumn`),
* `src/services/project-management.ts` (the sort block of `getTasks`).

Modelling conventions:

* JavaScript runtime values occurring in the records are modelled by `JValue`
  (strings, integer numbers, `null`, `undefined`).  The numeric claims under
  scrutiny only involve integers, so JS numbers are modelled as `Int`.
* `Array.prototype.sort(cmp)` is modelled as a stable insertion sort
  (`List.insertionSort` of Mathlib) that keeps the left element whenever
  `cmp ≤ 0`.  ECMAScript mandates a stable sort, and for consistent
  comparators every stable sort yields the same list; for short arrays V8
  actually runs an insertion sort.
* String lowercasing / trimming / substring search are modelled over the
  character lists backing Lean strings; locale collation (`localeCompare`) is
  modelled as code-point order.
-/

namespace AIAssist

open List (Perm)
open scoped List

/-- JavaScript values stored in table records.  Numbers are modelled as
integers (the claims only exercise integral numbers). -/
inductive JValue where
  | str : String → JValue
  | num : Int → JValue
  | null : JValue
  | undef : JValue
deriving DecidableEq, Repr

/-- `v === null || v === undefined`, the missing-value test used by the
data-table comparator (`data-table.tsx` lines 124-125). -/
def isMissing : JValue → Bool
  | .null => true
  | .undef => true
  | _ => false

/-- Is the value a string (used to select the string/string branch of the
abstract relational comparison)? -/
def isStr : JValue → Bool
  | .str _ => true
  | _ => false

/-- JavaScript `String(v)` on the modelled values.  Note `String(undefined)`
is the 9-character string `"undefined"` and `String(null)` is `"null"`. -/
def jsToString : JValue → String
  | .str s => s
  | .num n => toString n
  | .null => "null"
  | .undef => "undefined"

/-- `s.toLowerCase()`, modelled character-wise (ASCII-accurate, which covers
every value in the repository's mock data). -/
def jsToLower (s : String) : String :=
  String.mk (s.data.map Char.toLower)

/-- `s.trim()` (also the whitespace stripping performed by `Number(s)`),
modelled by dropping whitespace from both ends of the character list. -/
def jsTrim (s : String) : String :=
  String.mk (((s.data.dropWhile Char.isWhitespace).reverse.dropWhile
    Char.isWhitespace).reverse)

/-- Does `needle` occur as a contiguous run starting at some position of
`hay`?  (Helper for JavaScript's `indexOf`-based substring tests.) -/
def listContainsSub (needle : List Char) : List Char → Bool
  | [] => needle.isEmpty
  | c :: cs => needle.isPrefixOf (c :: cs) || listContainsSub needle cs

/-- `hay.indexOf(needle) !== -1` / `hay.includes(needle)`: substring
containment, modelled on the backing character lists. -/
def strIncludes (hay needle : String) : Bool :=
  listContainsSub needle.data hay.data

/-- Digits of a decimal literal folded into a natural number. -/
def digitsToNat (cs : List Char) : Nat :=
  cs.foldl (fun n c => n * 10 + (c.toNat - 48)) 0

/-- JavaScript `Number(s)` restricted to the integral fragment: the trimmed
string `""` is `0`, an optionally signed run of digits is its value, anything
else is NaN (`none`). -/
def strToNumber (s : String) : Option Int :=
  let t := ((s.data.dropWhile Char.isWhitespace).reverse.dropWhile
    Char.isWhitespace).reverse
  if t = [] then some 0
  else if t.all Char.isDigit then some (Int.ofNat (digitsToNat t))
  else if t.head? = some '-' ∧ t.tail ≠ [] ∧ t.tail.all Char.isDigit then
    some (-(Int.ofNat (digitsToNat t.tail)))
  else none

/-- JavaScript `ToNumber` on the modelled values; `none` stands for NaN. -/
def jsToNumber : JValue → Option Int
  | .num n => some n
  | .null => some 0
  | .undef => none
  | .str s => strToNumber s

/-- Lexicographic order on character lists by code point — JavaScript's
string `<` (code-unit order, which agrees with code-point order on the
basic multilingual plane). -/
def charListLt : List Char → List Char → Bool
  | [], [] => false
  | [], _ :: _ => true
  | _ :: _, [] => false
  | a :: as, b :: bs =>
    if a.toNat < b.toNat then true
    else if b.toNat < a.toNat then false
    else charListLt as bs

/-- The abstract relational comparison `a < b` of ECMAScript: two strings are
compared lexicographically, otherwise both sides are converted to numbers and
any NaN makes the comparison `false`. -/
def jsLt (a b : JValue) : Bool :=
  match a, b with
  | .str s, .str t => charListLt s.data t.data
  | a, b =>
    match jsToNumber a, jsToNumber b with
    | some m, some n => decide (m < n)
    | _, _ => false

/-- A table row: a finite map from field name to value, as an association
list (JavaScript object own-properties in insertion order). -/
abbrev Record := List (String × JValue)

/-- First-entry association-list lookup (JavaScript object property read). -/
def lookupField (k : String) : Record → Option JValue
  | [] => none
  | (k', v) :: rest => if k' = k then some v else lookupField k rest

/-- `row[key]`: an absent property reads as `undefined`. -/
def getField (row : Record) (k : String) : JValue :=
  (lookupField k row).getD JValue.undef

/-- Column descriptor of the data table.  Only `key` enters the filtering /
sorting / searching logic; `label`, `sortable`, `filterable`, `format` and
`width` only affect rendering and are omitted. -/
structure Column where
  key : String
deriving DecidableEq, Repr

/-- Sort direction of the data table (`sortConfig.direction`); the `null`
direction returns the input unchanged and is not modelled as a comparator. -/
inductive SortDir where
  | asc
  | desc
deriving DecidableEq, Repr

/-- The value-comparison tail of the `data-table.tsx` comparator
(lines 127-129): `if (aValue < bValue) return dir ? -1 : 1; ...; return 0`. -/
def jsCompareVals (dir : SortDir) (av bv : JValue) : Int :=
  if jsLt av bv then (if dir = SortDir.asc then -1 else 1)
  else if jsLt bv av then (if dir = SortDir.asc then 1 else -1)
  else 0

/-- The full `data-table.tsx` sort comparator (lines 120-130): a missing
(`null`/`undefined`) left value sorts after everything (`return 1`), a
missing right value before (`return -1`), otherwise the values are compared
by the abstract relational comparison. -/
def dtCompare (key : String) (dir : SortDir) (a b : Record) : Int :=
  let av := getField a key
  let bv := getField b key
  if isMissing av then 1
  else if isMissing bv then -1
  else jsCompareVals dir av bv

/-- `sortedData` of `data-table.tsx` (lines 117-131): `[...data].sort(cmp)`
with the comparator above, modelled as a stable insertion sort. -/
def sortedData (data : List Record) (key : String) (dir : SortDir) :
    List Record :=
  List.insertionSort (fun a b => dtCompare key dir a b ≤ 0) data

/-- One column filter test of `filteredData` (line 138):
`String(row[key]).toLowerCase().indexOf(value.toLowerCase()) !== -1`. -/
def matchesFilterValue (row : Record) (k v : String) : Bool :=
  strIncludes (jsToLower (jsToString (getField row k))) (jsToLower v)

/-- The column-filter loop of `filteredData` (lines 137-141): a row is
rejected as soon as some entry has a truthy (non-empty) value that the row's
stringified field does not contain. -/
def rowPassesFilters (filters : List (String × String)) (row : Record) :
    Bool :=
  filters.all fun kv =>
    if kv.2 = "" then true else matchesFilterValue row kv.1 kv.2

/-- The search part of `filteredData` (lines 143-149): with a truthy
(non-empty) search term the row must contain the lowered term in some
column's stringified value; the empty term keeps every row. -/
def rowMatchesSearch (cols : List Column) (searchTerm : String)
    (row : Record) : Bool :=
  if searchTerm = "" then true
  else cols.any fun c =>
    strIncludes (jsToLower (jsToString (getField row c.key)))
      (jsToLower searchTerm)

/-- `filteredData` of `data-table.tsx` (lines 134-153): column filters and
search applied conjunctively to the (already sorted) rows. -/
def filteredData (rows : List Record) (cols : List Column)
    (filters : List (String × String)) (searchTerm : String) : List Record :=
  rows.filter fun row =>
    rowPassesFilters filters row && rowMatchesSearch cols searchTerm row

/-- A JavaScript number as produced by `Math.ceil(total / pageSize)`:
finite, `Infinity`, or `NaN` (negative infinity cannot arise since `total`
is a record count, hence non-negative). -/
inductive JsNum where
  | fin : Int → JsNum
  | posInf : JsNum
  | nan : JsNum
deriving DecidableEq, Repr

/-- `Math.ceil(total / pageSize)` as evaluated in the pagination footer of
`data-table.tsx` (lines 314 and 318), for a non-negative `total`:
division by `0` yields `Infinity` (or `NaN` when `total = 0`), a positive
`pageSize` yields the ceiling `(total + pageSize - 1) / pageSize`, and a
negative `pageSize` yields the (non-positive) ceiling of a non-positive
quotient, i.e. truncation toward zero. -/
def totalPagesJs (total : Nat) (pageSize : Int) : JsNum :=
  if pageSize = 0 then (if total = 0 then JsNum.nan else JsNum.posInf)
  else if 0 < pageSize then
    JsNum.fin (Int.ofNat ((total + pageSize.toNat - 1) / pageSize.toNat))
  else JsNum.fin (-(Int.ofNat (total / pageSize.natAbs)))

/-- The caller-visible pagination computation of `DataTable`.  The component
performs no validation of `pageSize` whatsoever — it renders
`Math.ceil(pagination.total / pagination.pageSize)` directly — so the
computation never produces an error value. -/
def dataTablePagination (total : Nat) (pageSize : Int) :
    Except String JsNum :=
  Except.ok (totalPagesJs total pageSize)

/-- The task entity of `project-management.ts` / `task-list.tsx` /
`kanban-board.tsx` (identical shapes).  `status` and `priority` are kept as
strings because the grouping helpers receive them untyped; optional fields
are `Option`s; the numeric hour fields are modelled as integers. -/
structure Task where
  id : String
  title : String
  description : Option String
  status : String
  priority : String
  assignee : Option String
  dueDate : Option String
  createdDate : String
  updatedDate : String
  project : String
  tags : Option (List String)
  estimatedHours : Option Int
  actualHours : Option Int
deriving DecidableEq, Repr

/-- One clause of `filterTasks` (`task-list.tsx` lines 90-96): an optional
string field contributes a match only when it is truthy (present and
non-empty) and contains the lowered query. -/
def optFieldMatches (f : Option String) (query : String) : Bool :=
  match f with
  | some s => if s = "" then false else strIncludes (jsToLower s) query
  | none => false

/-- The row predicate of `filterTasks` (`task-list.tsx` lines 90-96), with
`query` already lowered: title, description, assignee, project or some tag
contains the query. -/
def taskMatchesQuery (t : Task) (query : String) : Bool :=
  strIncludes (jsToLower t.title) query
    || optFieldMatches t.description query
    || optFieldMatches t.assignee query
    || (if t.project = "" then false else strIncludes (jsToLower t.project) query)
    || (match t.tags with
        | some ts => ts.any fun tag => strIncludes (jsToLower tag) query
        | none => false)

/-- `filterTasks` of `task-list.tsx` (lines 86-97): a blank (empty after
trimming) query returns the input unchanged; otherwise the query is lowered
(note: lowered but NOT trimmed) and used as a substring test. -/
def filterTasks (tasks : List Task) (searchQuery : String) : List Task :=
  if jsTrim searchQuery = "" then tasks
  else tasks.filter fun t => taskMatchesQuery t (jsToLower searchQuery)

/-- Insert `x` into the bucket named `k` of an association-list of groups,
appending a new bucket at the end when `k` is new — the JavaScript pattern
`if (!groups[key]) groups[key] = []; groups[key].push(x)` together with
object-key insertion order. -/
def addToGroup {α : Type} (gs : List (String × List α)) (k : String)
    (x : α) : List (String × List α) :=
  match gs with
  | [] => [(k, [x])]
  | (k', l) :: rest =>
    if k' = k then (k', l ++ [x]) :: rest
    else (k', l) :: addToGroup rest k x

/-- The `reduce`-based grouping loop shared by `groupTasks`, `groupIssues`
and `tasksByColumn`, parameterised by the key function. -/
def groupFold {α : Type} (keyFn : α → String) (xs : List α) :
    List (String × List α) :=
  xs.foldl (fun gs x => addToGroup gs (keyFn x) x) []

/-- Concatenation of all group buckets, in group order. -/
def flattenGroups {α : Type} (gs : List (String × List α)) : List α :=
  gs.foldr (fun g acc => g.2 ++ acc) []

/-- The group key of a task (`task-list.tsx` line 78):
`task[groupBy] || "Uncategorized"` for the group-by fields admitted by the
component schema (`status`, `priority`, `assignee`, `project`); an absent or
empty (falsy) value falls back to `"Uncategorized"`. -/
def taskGroupKey (t : Task) (groupBy : String) : String :=
  let v : Option String :=
    if groupBy = "status" then some t.status
    else if groupBy = "priority" then some t.priority
    else if groupBy = "assignee" then t.assignee
    else if groupBy = "project" then some t.project
    else none
  match v with
  | some s => if s = "" then "Uncategorized" else s
  | none => "Uncategorized"

/-- `groupTasks` of `task-list.tsx` (lines 74-83). -/
def groupTasks (tasks : List Task) (groupBy : String) :
    List (String × List Task) :=
  if groupBy = "none" then [("All Tasks", tasks)]
  else groupFold (fun t => taskGroupKey t groupBy) tasks

/-- A Linear issue as far as `groupIssues` reads it: `project` and
`assignee` are optional objects of which only `.name` is used, modelled by
the optional name directly. -/
structure Issue where
  status : String
  priority : String
  projectName : Option String
  assigneeName : Option String
deriving DecidableEq, Repr

/-- The `switch` of `groupIssues` (`linear-issue-list.tsx` lines 30-45):
`issue.project?.name || "No Project"`, `issue.assignee?.name ||
"Unassigned"`, and a literal `"Other"` for any other grouping key. -/
def issueGroupKey (i : Issue) (groupBy : String) : String :=
  if groupBy = "status" then i.status
  else if groupBy = "priority" then i.priority
  else if groupBy = "project" then
    (match i.projectName with
     | some n => if n = "" then "No Project" else n
     | none => "No Project")
  else if groupBy = "assignee" then
    (match i.assigneeName with
     | some n => if n = "" then "Unassigned" else n
     | none => "Unassigned")
  else "Other"

/-- `groupIssues` of `linear-issue-list.tsx` (lines 24-53). -/
def groupIssues (issues : List Issue) (groupBy : String) :
    List (String × List Issue) :=
  if groupBy = "none" then [("All Issues", issues)]
  else groupFold (fun i => issueGroupKey i groupBy) issues

/-- `getPriorityOrder` of `task-list.tsx` (lines 100-103):
`order[priority] || 999` — note that `||` sees the rank `0` of
`"critical"` as falsy, so `"critical"` gets 999 just like unknown keys. -/
def getPriorityOrder (priority : String) : Int :=
  let v : Option Int :=
    if priority = "critical" then some 0
    else if priority = "high" then some 1
    else if priority = "medium" then some 2
    else if priority = "low" then some 3
    else none
  match v with
  | some n => if n = 0 then 999 else n
  | none => 999

/-- `getStatusOrder` of `task-list.tsx` (lines 106-109): same `|| 999`
pattern, so the rank-0 key `"todo"` also gets 999. -/
def getStatusOrder (status : String) : Int :=
  let v : Option Int :=
    if status = "todo" then some 0
    else if status = "in-progress" then some 1
    else if status = "review" then some 2
    else if status = "done" then some 3
    else none
  match v with
  | some n => if n = 0 then 999 else n
  | none => 999

/-- `a.localeCompare(b)` modelled as code-point order (locale collation
reduced to ordinal order; this branch is not exercised by the claims). -/
def strLocaleCompare (a b : String) : Int :=
  if charListLt a.data b.data then -1
  else if charListLt b.data a.data then 1
  else 0

/-- The group-key comparator of `sortedGroupKeys` (`task-list.tsx` lines
162-170): rank difference for `priority` / `status` grouping, locale
comparison otherwise. -/
def groupKeyCompare (groupBy : String) (a b : String) : Int :=
  if groupBy = "priority" then getPriorityOrder a - getPriorityOrder b
  else if groupBy = "status" then getStatusOrder a - getStatusOrder b
  else strLocaleCompare a b

/-- `sortedGroupKeys` of `task-list.tsx` (lines 162-170):
`Object.keys(groupedTasks).sort(cmp)` (stable sort). -/
def sortedGroupKeys (keys : List String) (groupBy : String) : List String :=
  List.insertionSort (fun a b => groupKeyCompare groupBy a b ≤ 0) keys

/-- `statusToColumn` of `kanban-board.tsx` (lines 41-49): the `switch` with
default column `"To Do"`. -/
def statusToColumn (status : String) : String :=
  if status = "todo" then "To Do"
  else if status = "in-progress" then "In Progress"
  else if status = "review" then "In Review"
  else if status = "done" then "Done"
  else "To Do"

/-- The default kanban column list (`kanban-board.tsx` line 38). -/
def defaultColumns : List String :=
  ["To Do", "In Progress", "In Review", "Done"]

/-- `tasksByColumn` of `kanban-board.tsx` (lines 80-87): the same
`reduce`-grouping keyed by `statusToColumn(task.status)`. -/
def tasksByColumn (tasks : List Task) : List (String × List Task) :=
  groupFold (fun t => statusToColumn t.status) tasks

/-- First-entry lookup in the association-list of group buckets (JavaScript
object property read on the groups object). -/
def lookupGroup {α : Type} (c : String) :
    List (String × List α) → Option (List α)
  | [] => none
  | (k, l) :: rest => if k = c then some l else lookupGroup c rest

/-- `tasksByColumn[column] || []` (`kanban-board.tsx` line 93). -/
def columnTasks (tasks : List Task) (c : String) : List Task :=
  (lookupGroup c (tasksByColumn tasks)).getD []

/-- The `priorityOrder` table local to the sort block of `getTasks`
(`project-management.ts` line 163): `{low:1, medium:2, high:3, critical:4}`;
an unknown priority reads as `undefined` (`none`, which compares as NaN). -/
def gtPriorityOrder (p : String) : Option Int :=
  if p = "low" then some 1
  else if p = "medium" then some 2
  else if p = "high" then some 3
  else if p = "critical" then some 4
  else none

/-- A monotone numeric key for ISO `YYYY-MM-DD` date strings (digits of the
date read as one number).  `new Date(s)` is monotone in this key for the ISO
day-precision dates appearing in the data, which is all the relational
comparison of the `getTasks` sort observes. -/
def isoDateKey (s : String) : Int :=
  Int.ofNat (digitsToNat (s.data.filter fun c => c != '-'))

/-- The key of `new Date(0)` (the Unix epoch, 1970-01-01). -/
def epochKey : Int := 19700101

/-- `a[sortBy] ? new Date(a[sortBy]) : new Date(0)`
(`project-management.ts` lines 174-175): a missing or empty (falsy) date
string is coerced to the epoch. -/
def gtDateKey : Option String → Int
  | some s => if s = "" then epochKey else isoDateKey s
  | none => epochKey

/-- The sort value selected by the `getTasks` comparator
(`project-management.ts` lines 166-179) for the three admissible sort keys;
any other key is unreachable through the typed interface, and is modelled as
`none` (NaN-like: every comparison returns 0). -/
def gtSortValue (sortBy : String) (t : Task) : Option Int :=
  if sortBy = "priority" then gtPriorityOrder t.priority
  else if sortBy = "dueDate" then some (gtDateKey t.dueDate)
  else if sortBy = "createdDate" then some (gtDateKey (some t.createdDate))
  else none

/-- The `getTasks` comparator (`project-management.ts` lines 165-185):
`order = sortOrder === "desc" ? -1 : 1`, then
`aValue > bValue → order; aValue < bValue → -order; 0`; a NaN-like value on
either side makes both comparisons false. -/
def gtCompare (sortBy sortOrder : String) (a b : Task) : Int :=
  let ord : Int := if sortOrder = "desc" then -1 else 1
  match gtSortValue sortBy a, gtSortValue sortBy b with
  | some x, some y => if x > y then ord else if x < y then -ord else 0
  | _, _ => 0

/-- The sort applied by `getTasks` to the filtered task list
(`project-management.ts` lines 162-186), modelled as a stable insertion
sort with the comparator above. -/
def getTasksSort (tasks : List Task) (sortBy sortOrder : String) :
    List Task :=
  List.insertionSort (fun a b => gtCompare sortBy sortOrder a b ≤ 0) tasks

/-- A concrete task with a due date (spec example `{id:1, due:"2024-01-01"}`,
test-input shape of the data service). -/
def taskWithDue : Task :=
  ⟨"task-1", "with due", none, "todo", "low", none, some "2024-01-01",
    "2024-03-01", "2024-03-01", "proj", none, none, none⟩

/-- A concrete task without a due date (spec example `{id:2}`). -/
def taskNoDue : Task :=
  ⟨"task-2", "no due", none, "todo", "low", none, none,
    "2024-03-02", "2024-03-02", "proj", none, none, none⟩

/-- The spec's example record `{id:1,p:"low"}` used as a concrete stability
input. -/
def recLow1 : Record := [("id", JValue.num 1), ("p", JValue.str "low")]

/-- Second record tying with `recLow1` on field `"p"`. -/
def recLow2 : Record := [("id", JValue.num 2), ("p", JValue.str "low")]

/-- Record with a distinct `"p"` value. -/
def recHigh : Record := [("id", JValue.num 3), ("p", JValue.str "high")]

/-- Record whose field `"k"` is the non-numeric string `"abc"` (mixed-type
sort input). -/
def recAbc : Record := [("k", JValue.str "abc")]

/-- Record whose field `"k"` is the number `5` (mixed-type sort input). -/
def recNum5 : Record := [("k", JValue.num 5)]

section GroupingLemmas

variable {α : Type}

theorem flattenGroups_nil : flattenGroups ([] : List (String × List α)) = [] :=
  rfl

theorem flattenGroups_cons (g : String × List α) (rest : List (String × List α)) :
    flattenGroups (g :: rest) = g.2 ++ flattenGroups rest :=
  rfl

theorem flattenGroups_addToGroup (gs : List (String × List α)) (k : String)
    (x : α) : flattenGroups (addToGroup gs k x) ~ flattenGroups gs ++ [x] := by
  induction gs with
  | nil => simp [addToGroup, flattenGroups]
  | cons g rest ih =>
    obtain ⟨k', l⟩ := g
    by_cases hk : k' = k
    · rw [addToGroup, if_pos hk, flattenGroups_cons, flattenGroups_cons]
      rw [List.append_assoc, List.append_assoc]
      exact List.Perm.append_left l List.perm_append_comm
    · rw [addToGroup, if_neg hk, flattenGroups_cons, flattenGroups_cons]
      rw [List.append_assoc]
      exact List.Perm.append_left l ih

theorem flattenGroups_foldl (keyFn : α → String) :
    ∀ (xs : List α) (gs : List (String × List α)),
      flattenGroups (xs.foldl (fun gs x => addToGroup gs (keyFn x) x) gs)
        ~ flattenGroups gs ++ xs := by
  intro xs
  induction xs with
  | nil => intro gs; simp
  | cons x xs ih =>
    intro gs
    rw [List.foldl_cons]
    calc flattenGroups
          (xs.foldl (fun gs x => addToGroup gs (keyFn x) x)
            (addToGroup gs (keyFn x) x))
        ~ flattenGroups (addToGroup gs (keyFn x) x) ++ xs := ih _
      _ ~ (flattenGroups gs ++ [x]) ++ xs :=
          (flattenGroups_addToGroup gs (keyFn x) x).append_right xs
      _ = flattenGroups gs ++ x :: xs := by simp

theorem flattenGroups_groupFold (keyFn : α → String) (xs : List α) :
    flattenGroups (groupFold keyFn xs) ~ xs := by
  have h := flattenGroups_foldl keyFn xs []
  simpa [groupFold, flattenGroups] using h

theorem lookup_addToGroup (k c : String) (x : α) :
    ∀ gs : List (String × List α),
      lookupGroup c (addToGroup gs k x)
        = if c = k then some (((lookupGroup c gs).getD []) ++ [x])
          else lookupGroup c gs := by
  intro gs
  induction gs with
  | nil =>
    by_cases h : c = k
    · simp [addToGroup, lookupGroup, h]
    · have h' : ¬ k = c := fun he => h he.symm
      simp [addToGroup, lookupGroup, h, h']
  | cons g rest ih =>
    obtain ⟨k', l⟩ := g
    simp only [addToGroup]
    by_cases hk : k' = k
    · rw [if_pos hk]
      subst hk
      simp only [lookupGroup]
      by_cases hc : k' = c
      · simp only [if_pos hc, if_pos hc.symm, Option.getD_some]
      · simp only [if_neg hc,
          if_neg (show ¬ c = k' from fun he => hc he.symm)]
    · rw [if_neg hk]
      simp only [lookupGroup]
      by_cases hc : k' = c
      · simp only [if_pos hc,
          if_neg (show ¬ c = k from fun he => hk (hc.trans he))]
      · simp only [if_neg hc, ih]

theorem lookupD_foldl_filter (keyFn : α → String) :
    ∀ (xs : List α) (gs : List (String × List α)) (c : String),
      (lookupGroup c
          (xs.foldl (fun gs x => addToGroup gs (keyFn x) x) gs)).getD []
        = (lookupGroup c gs).getD []
            ++ xs.filter (fun x => decide (keyFn x = c)) := by
  intro xs
  induction xs with
  | nil => intro gs c; simp
  | cons x xs ih =>
    intro gs c
    rw [List.foldl_cons, ih]
    rw [lookup_addToGroup]
    by_cases hc : c = keyFn x
    · subst hc
      simp [List.filter_cons]
    · have hc' : ¬ keyFn x = c := fun h => hc h.symm
      simp [hc, hc', List.filter_cons]

theorem columnTasks_filter (tasks : List Task) (c : String) :
    columnTasks tasks c
      = tasks.filter (fun t => decide (statusToColumn t.status = c)) := by
  have h := lookupD_foldl_filter (fun t : Task => statusToColumn t.status)
    tasks [] c
  simpa [columnTasks, tasksByColumn, groupFold] using h

theorem sum_map_add {β : Type} (l : List β) (f g : β → Nat) :
    (l.map fun b => f b + g b).sum = (l.map f).sum + (l.map g).sum := by
  induction l with
  | nil => simp
  | cons b bs ih => simp [ih]; omega

theorem sum_indicator_not_mem (k : String) :
    ∀ l : List String, k ∉ l →
      (l.map fun c => if k = c then 1 else 0).sum = 0 := by
  intro l
  induction l with
  | nil => simp
  | cons c cs ih =>
    intro h
    have hkc : ¬ k = c := fun he => h (he ▸ List.mem_cons_self c cs)
    have hcs : k ∉ cs := fun hm => h (List.mem_cons_of_mem c hm)
    simp [hkc, ih hcs]

theorem sum_indicator_nodup_mem (k : String) :
    ∀ l : List String, l.Nodup → k ∈ l →
      (l.map fun c => if k = c then 1 else 0).sum = 1 := by
  intro l
  induction l with
  | nil => intro _ h; cases h
  | cons c cs ih =>
    intro hnd hm
    by_cases hkc : k = c
    · subst hkc
      have hkcs : k ∉ cs := (List.nodup_cons.mp hnd).1
      simp [sum_indicator_not_mem k cs hkcs]
    · have hkm : k ∈ cs := by
        cases List.mem_cons.mp hm with
        | inl h => exact absurd h hkc
        | inr h => exact h
      simp [hkc, ih (List.nodup_cons.mp hnd).2 hkm]

theorem sum_length_filter_by_key (keyFn : α → String) (cols : List String)
    (hnd : cols.Nodup) :
    ∀ xs : List α, (∀ x ∈ xs, keyFn x ∈ cols) →
      (cols.map fun c =>
          (xs.filter fun x => decide (keyFn x = c)).length).sum
        = xs.length := by
  intro xs
  induction xs with
  | nil => simp
  | cons x xs ih =>
    intro h
    have hx : keyFn x ∈ cols := h x (List.mem_cons_self x xs)
    have hxs : ∀ y ∈ xs, keyFn y ∈ cols :=
      fun y hy => h y (List.mem_cons_of_mem x hy)
    have hstep : ∀ c ∈ cols,
        ((x :: xs).filter fun y => decide (keyFn y = c)).length
          = (if keyFn x = c then 1 else 0)
              + (xs.filter fun y => decide (keyFn y = c)).length := by
      intro c _
      by_cases hc : keyFn x = c
      · simp [List.filter_cons, hc]
        omega
      · simp [List.filter_cons, hc]
    rw [List.map_congr_left hstep, sum_map_add,
      sum_indicator_nodup_mem (keyFn x) cols hnd hx, ih hxs]
    simp [Nat.add_comm]

end GroupingLemmas

section SortLemmas

variable {α : Type} {r : α → α → Prop} [DecidableRel r]

theorem orderedInsert_of_forall_not (x : α) :
    ∀ l : List α, (∀ y ∈ l, ¬ r x y) →
      List.orderedInsert r x l = l ++ [x] := by
  intro l
  induction l with
  | nil => intro _; rfl
  | cons y ys ih =>
    intro h
    rw [List.orderedInsert, if_neg (h y (List.mem_cons_self y ys)),
      ih fun z hz => h z (List.mem_cons_of_mem y hz)]
    rfl

theorem orderedInsert_append_of_forall (x : α) :
    ∀ (l1 l2 : List α), (∀ b ∈ l2, r x b) →
      List.orderedInsert r x (l1 ++ l2) = List.orderedInsert r x l1 ++ l2 := by
  intro l1
  induction l1 with
  | nil =>
    intro l2 h
    cases l2 with
    | nil => rfl
    | cons b bs =>
      simp [List.orderedInsert, h b (List.mem_cons_self b bs)]
  | cons a as ih =>
    intro l2 h
    by_cases hr : r x a
    · simp [List.orderedInsert, hr]
    · simp [List.orderedInsert, hr, ih l2 h]

/-- Pair stability of insertion sort without any consistency assumption on
the relation: if `a` precedes `b` in the input and `r a b` holds, the
relative order of `a` and `b` survives sorting (the two lemmas below feed
the stability and tie-order claims). -/
theorem pair_sublist_orderedInsert (a : α) :
    ∀ l : List α, ∀ b ∈ l, r a b → [a, b] <+ List.orderedInsert r a l := by
  intro l
  induction l with
  | nil => intro b hb; cases hb
  | cons y ys ih =>
    intro b hb hr
    rw [List.orderedInsert]
    by_cases hy : r a y
    · rw [if_pos hy]
      exact (List.singleton_sublist.mpr hb).cons_cons a
    · rw [if_neg hy]
      cases List.mem_cons.mp hb with
      | inl he => exact absurd (he ▸ hr) hy
      | inr hm => exact (ih b hm hr).cons y

end SortLemmas

section DataTableCompareLemmas

theorem dtCompare_missing_left {key : String} {dir : SortDir} {a b : Record}
    (h : isMissing (getField a key) = true) : dtCompare key dir a b = 1 := by
  simp [dtCompare, h]

theorem dtCompare_present_missing {key : String} {dir : SortDir}
    {a b : Record} (ha : isMissing (getField a key) = false)
    (hb : isMissing (getField b key) = true) : dtCompare key dir a b = -1 := by
  simp [dtCompare, ha, hb]

theorem jsLt_eq_false_of_nan {a b : JValue}
    (hs : (isStr a && isStr b) = false)
    (hn : jsToNumber a = none ∨ jsToNumber b = none) : jsLt a b = false := by
  cases a <;> cases b <;>
    simp_all [jsLt, isStr, jsToNumber]

end DataTableCompareLemmas

theorem rowPassesFilters_iff (F : List (String × String)) (row : Record) :
    rowPassesFilters F row = true
      ↔ ∀ kv ∈ F, kv.2 ≠ "" → matchesFilterValue row kv.1 kv.2 = true := by
  rw [rowPassesFilters, List.all_eq_true]
  constructor
  · intro h kv hkv hne
    have h2 := h kv hkv
    rwa [if_neg hne] at h2
  · intro h kv hkv
    by_cases he : kv.2 = ""
    · rw [if_pos he]
    · rw [if_neg he]
      exact h kv hkv he

/-! ## The claims -/

/-- C1 (code bug): `getPriorityOrder` computes `order[priority] || 999`, and
the rank `0` of `"critical"` (respectively of `"todo"` in `getStatusOrder`)
is falsy in JavaScript, so both receive the unknown-key fallback `999` and
their groups sort after all the others: grouping by priority yields the key
order `[high, medium, low, critical]` and grouping by status yields
`[in-progress, review, done, todo]`, not the documented critical-first /
todo-first order. -/
theorem sortedGroupKeys_rank_zero_falsy :
    sortedGroupKeys ["critical", "high", "medium", "low"] "priority"
        = ["high", "medium", "low", "critical"]
    ∧ sortedGroupKeys ["todo", "in-progress", "review", "done"] "status"
        = ["in-progress", "review", "done", "todo"]
    ∧ getPriorityOrder "critical" = 999
    ∧ getStatusOrder "todo" = 999 :=
  ⟨by decide, by decide, by decide, by decide⟩

/-- C2 (counterexample): the spec's own example `[{id:1, due:"2024-01-01"},
{id:2}]` sorted ascending by `dueDate` through the `getTasks` comparator
places the record WITHOUT the field first — a missing date is coerced to
`new Date(0)` — whereas the claim requires it last. -/
theorem getTasksSort_missing_due_first :
    getTasksSort [taskWithDue, taskNoDue] "dueDate" "asc"
        = [taskNoDue, taskWithDue]
    ∧ getTasksSort [taskWithDue, taskNoDue] "dueDate" "asc"
        ≠ [taskWithDue, taskNoDue] :=
  ⟨by decide, by decide⟩

/-- C2 (amended): in the data-table sort every record whose sort-field value
is missing (`null`/`undefined`) appears after every record that has it, and
this holds identically for both directions; in the `getTasks` sort a missing
due date is instead coerced to the epoch `new Date(0)`, so it sorts first
ascending and last descending (shown on the spec's example input). -/
theorem sortedData_missing_always_last :
    (∀ (data : List Record) (key : String) (dir : SortDir),
      ∃ l1 l2, sortedData data key dir = l1 ++ l2
        ∧ (∀ r0 ∈ l1, isMissing (getField r0 key) = false)
        ∧ (∀ r0 ∈ l2, isMissing (getField r0 key) = true))
    ∧ getTasksSort [taskWithDue, taskNoDue] "dueDate" "asc"
        = [taskNoDue, taskWithDue]
    ∧ getTasksSort [taskWithDue, taskNoDue] "dueDate" "desc"
        = [taskWithDue, taskNoDue] := by
  refine ⟨?_, by decide, by decide⟩
  intro data key dir
  simp only [sortedData]
  induction data with
  | nil => exact ⟨[], [], rfl, by simp, by simp⟩
  | cons x xs ih =>
    obtain ⟨l1, l2, heq, h1, h2⟩ := ih
    rw [List.insertionSort, heq]
    by_cases hm : isMissing (getField x key) = true
    · rw [orderedInsert_of_forall_not x (l1 ++ l2) ?hall]
      case hall =>
        intro y _
        rw [dtCompare_missing_left hm]
        omega
      refine ⟨l1, l2 ++ [x], by rw [List.append_assoc], h1, ?_⟩
      intro r0 hr0
      rcases List.mem_append.mp hr0 with h | h
      · exact h2 r0 h
      · rw [List.mem_singleton.mp h]
        exact hm
    · have hm' : isMissing (getField x key) = false := by simpa using hm
      rw [orderedInsert_append_of_forall x l1 l2 ?hall2]
      case hall2 =>
        intro b hb
        rw [dtCompare_present_missing hm' (h2 b hb)]
        omega
      refine ⟨List.orderedInsert _ x l1, l2, rfl, ?_, h2⟩
      intro r0 hr0
      rcases (List.mem_orderedInsert _).mp hr0 with h | h
      · rw [h]
        exact hm'
      · exact h1 r0 h

/-- C2 (witness): the universally quantified data-table part applied at a
concrete input with one missing and one present value. -/
theorem sortedData_missing_always_last_witness :
    ∃ l1 l2,
      sortedData [[("k", JValue.undef)], [("k", JValue.num 1)]] "k"
          SortDir.asc = l1 ++ l2
        ∧ (∀ r0 ∈ l1, isMissing (getField r0 "k") = false)
        ∧ (∀ r0 ∈ l2, isMissing (getField r0 "k") = true) :=
  sortedData_missing_always_last.1
    [[("k", JValue.undef)], [("k", JValue.num 1)]] "k" SortDir.asc

/-- C3 (confirmed): data-table column filtering is conjunctive and monotone
in the filter set: whenever every non-empty constraint of `F'` is also a
non-empty constraint of `F` (in particular when they form a strict subset),
every row kept by `filteredData` under `F` is kept under `F'`; a row passes
the filters exactly when it matches every non-empty entry; and an entry with
the empty filter value does not constrain. -/
theorem filteredData_conjunctive_monotone :
    (∀ (rows : List Record) (cols : List Column) (s : String)
        (F F' : List (String × String)) (row : Record),
      (∀ kv ∈ F'.filter (fun kv => kv.2 != ""),
          kv ∈ F.filter (fun kv => kv.2 != "")) →
      row ∈ filteredData rows cols F s → row ∈ filteredData rows cols F' s)
    ∧ (∀ (F : List (String × String)) (row : Record),
        rowPassesFilters F row = true
          ↔ ∀ kv ∈ F, kv.2 ≠ "" → matchesFilterValue row kv.1 kv.2 = true)
    ∧ (∀ (F : List (String × String)) (row : Record) (k : String),
        rowPassesFilters ((k, "") :: F) row = rowPassesFilters F row) := by
  refine ⟨?_, rowPassesFilters_iff, ?_⟩
  · intro rows cols s F F' row hsub hmem
    rw [filteredData, List.mem_filter] at hmem ⊢
    obtain ⟨hrow, hpred⟩ := hmem
    rw [Bool.and_eq_true] at hpred
    refine ⟨hrow, ?_⟩
    rw [Bool.and_eq_true]
    refine ⟨?_, hpred.2⟩
    rw [rowPassesFilters_iff]
    intro kv hkv hne
    have hkvF' : kv ∈ F'.filter (fun kv => kv.2 != "") :=
      List.mem_filter.mpr ⟨hkv, by simpa using hne⟩
    have hkvF := List.mem_filter.mp (hsub kv hkvF')
    exact (rowPassesFilters_iff F row).mp hpred.1 kv hkvF.1
      (by simpa using hkvF.2)
  · intro F row k
    simp [rowPassesFilters, List.all_cons]

/-- C3 (witness): the monotonicity part applied at a concrete row kept by
the filter set `[("p","low")]` and, a fortiori, by the empty filter set. -/
theorem filteredData_conjunctive_monotone_witness :
    recLow1 ∈ filteredData [recLow1] [⟨"p"⟩] [] "" :=
  filteredData_conjunctive_monotone.1 [recLow1] [⟨"p"⟩] ""
    [("p", "low")] [] recLow1 (by decide) (by decide)

/-- C4 (confirmed): grouping partitions its input — the concatenation of
all buckets is a permutation of the records (nothing dropped, nothing
duplicated) — and the `"none"` key yields the single default-labelled
group, for both `groupTasks` and `groupIssues`. -/
theorem grouping_partitions_input :
    (∀ (tasks : List Task) (g : String),
        Perm (flattenGroups (groupTasks tasks g)) tasks)
    ∧ (∀ tasks : List Task, groupTasks tasks "none" = [("All Tasks", tasks)])
    ∧ (∀ (issues : List Issue) (g : String),
        Perm (flattenGroups (groupIssues issues g)) issues)
    ∧ (∀ issues : List Issue,
        groupIssues issues "none" = [("All Issues", issues)]) := by
  refine ⟨?_, ?_, ?_, ?_⟩
  · intro tasks g
    by_cases h : g = "none"
    · simp [groupTasks, h, flattenGroups_cons, flattenGroups_nil]
    · rw [groupTasks, if_neg h]
      exact flattenGroups_groupFold _ tasks
  · intro tasks
    rfl
  · intro issues g
    by_cases h : g = "none"
    · simp [groupIssues, h, flattenGroups_cons, flattenGroups_nil]
    · rw [groupIssues, if_neg h]
      exact flattenGroups_groupFold _ issues
  · intro issues
    rfl

/-- C5 (counterexample): in the data table a whitespace-only search term is
truthy (`if (searchTerm)`) and is used untrimmed, so the single row
`{a:"x"}` is dropped by the one-space search term — the claim requires all
records back unchanged. -/
theorem filteredData_whitespace_drops :
    filteredData [[("a", JValue.str "x")]] [⟨"a"⟩] [] " "
      ≠ [[("a", JValue.str "x")]] := by decide

/-- C5 (amended): `filterTasks` trims, so any blank (empty or
whitespace-only) query returns the task list unchanged; the data-table
search returns all rows only for the literally empty term (with no active
filters) — a whitespace-only term there is an active search. -/
theorem blank_search_matches_everything :
    (∀ (tasks : List Task) (q : String),
        jsTrim q = "" → filterTasks tasks q = tasks)
    ∧ (∀ (rows : List Record) (cols : List Column),
        filteredData rows cols [] "" = rows) := by
  constructor
  · intro tasks q h
    rw [filterTasks, if_pos h]
  · intro rows cols
    simp [filteredData, rowPassesFilters, rowMatchesSearch]

/-- C5 (witness): the trimming branch applied at a three-space query, plus
the empty-term data-table branch at a concrete row. -/
theorem blank_search_matches_everything_witness :
    filterTasks [taskNoDue] "   " = [taskNoDue]
    ∧ filteredData [recLow1] [⟨"p"⟩] [] "" = [recLow1] :=
  ⟨blank_search_matches_everything.1 [taskNoDue] "   " (by decide),
    blank_search_matches_everything.2 [recLow1] [⟨"p"⟩]⟩

/-- C6 (counterexample): an absent field stringifies to `"undefined"`, not
to the empty string: the non-empty term `"undef"` matches the empty record
through its missing column `"a"`, which the claimed empty-string treatment
could never do. -/
theorem absent_field_matches_undef :
    rowMatchesSearch [⟨"a"⟩] "undef" [] = true
    ∧ strIncludes (jsToLower "") (jsToLower "undef") = false :=
  ⟨by decide, by decide⟩

/-- C6 (amended): reading an absent field never fails — it yields
`undefined`, which `String(...)` turns into the string `"undefined"` — so
for search matching the column behaves exactly like the constant string
`"undefined"` (and can therefore match terms such as `"undef"`). -/
theorem absent_field_stringifies_undefined :
    ∀ (row : Record) (k term : String), lookupField k row = none →
      strIncludes (jsToLower (jsToString (getField row k))) (jsToLower term)
        = strIncludes (jsToLower "undefined") (jsToLower term) := by
  intro row k term h
  rw [getField, h]
  rfl

/-- C6 (witness): the amended statement applied to the empty record and the
term `"undef"`. -/
theorem absent_field_stringifies_undefined_witness :
    strIncludes (jsToLower (jsToString (getField [] "a")))
        (jsToLower "undef")
      = strIncludes (jsToLower "undefined") (jsToLower "undef") :=
  absent_field_stringifies_undefined [] "a" "undef" (by decide)

/-- C7 (confirmed): data-table sorting is stable: any two records whose
sort-field values tie under the comparator (`dtCompare … = 0`) appear in the
sorted output in the same relative order they had in the input. -/
theorem sortedData_stable_ties :
    ∀ (data : List Record) (key : String) (dir : SortDir) (a b : Record),
      dtCompare key dir a b = 0 → [a, b] <+ data →
      [a, b] <+ sortedData data key dir := by
  intro data key dir a b h0 hsub
  have hab : dtCompare key dir a b ≤ 0 := le_of_eq h0
  exact List.pair_sublist_insertionSort hab hsub

/-- C7 (witness): the spec's stability example — two `"low"`-valued records
keep their input order when sorted descending on `"p"`. -/
theorem sortedData_stable_ties_witness :
    [recLow1, recLow2] <+ sortedData [recLow1, recLow2, recHigh] "p"
      SortDir.desc :=
  sortedData_stable_ties [recLow1, recLow2, recHigh] "p" SortDir.desc
    recLow1 recLow2 (by decide) (by decide)

/-- C8 (counterexample): comparing the number `5` with the string `"abc"`
(whose numeric interpretation fails) yields comparator value 0 — the pair
is simply left in place by the sort — whereas the claimed coercion to
strings would compare `"5" < "abc"`, which is true and would reorder. -/
theorem mixed_compare_not_string_coerced :
    jsCompareVals SortDir.asc (JValue.num 5) (JValue.str "abc") = 0
    ∧ jsLt (JValue.str (jsToString (JValue.num 5)))
        (JValue.str (jsToString (JValue.str "abc"))) = true
    ∧ sortedData [recAbc, recNum5] "k" SortDir.asc = [recAbc, recNum5] :=
  ⟨by decide, by decide, by decide⟩

/-- C8 (amended): sorting is total — it never raises, always producing a
permutation of its input — and any value comparison whose numeric
interpretation fails on either side (the operands not being two strings) is
treated as a tie (comparator 0, relative order preserved), not as a
comparison of string coercions. -/
theorem sortedData_total_nan_ties :
    (∀ (data : List Record) (key : String) (dir : SortDir),
        Perm (sortedData data key dir) data)
    ∧ (∀ (dir : SortDir) (av bv : JValue),
        (isStr av && isStr bv) = false →
        jsToNumber av = none ∨ jsToNumber bv = none →
        jsCompareVals dir av bv = 0) := by
  constructor
  · intro data key dir
    simpa [sortedData] using
      List.perm_insertionSort
        (fun a b => dtCompare key dir a b ≤ 0) data
  · intro dir av bv hs hn
    have h1 : jsLt av bv = false := jsLt_eq_false_of_nan hs hn
    have h2 : jsLt bv av = false :=
      jsLt_eq_false_of_nan (by rw [Bool.and_comm]; exact hs) hn.symm
    simp [jsCompareVals, h1, h2]

/-- C8 (witness): the permutation part at a concrete mixed-type list and
the tie part at `5` versus `"abc"`. -/
theorem sortedData_total_nan_ties_witness :
    Perm (sortedData [recAbc, recNum5] "k" SortDir.asc) [recAbc, recNum5]
    ∧ jsCompareVals SortDir.desc (JValue.num 5) (JValue.str "abc") = 0 :=
  ⟨sortedData_total_nan_ties.1 [recAbc, recNum5] "k" SortDir.asc,
    sortedData_total_nan_ties.2 SortDir.desc (JValue.num 5)
      (JValue.str "abc") (by decide) (Or.inr (by decide))⟩

/-- C9 (counterexample): with ten records and `pageSize = 0` the component
silently renders `Math.ceil(10 / 0) = Infinity` pages; no error of any kind
is produced, contradicting the claimed fail-fast contract check. -/
theorem pagination_no_fail_fast :
    dataTablePagination 10 0 = Except.ok JsNum.posInf := rfl

/-- C9 (amended): the pagination footer performs no validation at all:
every input, `pageSize ≤ 0` included, produces an ordinary value (never an
error) — `Infinity` for `pageSize = 0` on a non-empty table; for
`pageSize > 0` the page count is the ceiling of `total / pageSize`,
characterised as the least `q` with `total ≤ q·pageSize`, and it is `0`
for an empty table. -/
theorem totalPages_ceil_no_validation :
    (∀ (total : Nat) (pageSize : Int),
        (dataTablePagination total pageSize).isOk = true)
    ∧ (∀ total : Nat, 0 < total → totalPagesJs total 0 = JsNum.posInf)
    ∧ (∀ (total : Nat) (pageSize : Int), 0 < pageSize →
        ∃ q : Nat, totalPagesJs total pageSize = JsNum.fin (Int.ofNat q)
          ∧ total ≤ q * pageSize.toNat
          ∧ (0 < total → (q - 1) * pageSize.toNat < total))
    ∧ (∀ pageSize : Int, 0 < pageSize →
        totalPagesJs 0 pageSize = JsNum.fin 0) := by
  refine ⟨?_, ?_, ?_, ?_⟩
  · intro total pageSize
    rfl
  · intro total h
    simp [totalPagesJs, h.ne']
  · intro total p hp
    have hp0 : p ≠ 0 := hp.ne'
    have hnpos : 0 < p.toNat := by omega
    refine ⟨(total + p.toNat - 1) / p.toNat, ?_, ?_, ?_⟩
    · simp [totalPagesJs, hp0, hp]
    · rcases Nat.eq_zero_or_pos total with h0 | h0
      · subst h0
        exact Nat.zero_le _
      · have hsplit : total + p.toNat - 1 = (total - 1) + p.toNat := by
          omega
        rw [hsplit, Nat.add_div_right _ hnpos]
        have hdm := Nat.div_add_mod (total - 1) p.toNat
        have hmod := Nat.mod_lt (total - 1) hnpos
        have hexp : ((total - 1) / p.toNat + 1) * p.toNat
            = p.toNat * ((total - 1) / p.toNat) + p.toNat := by ring
        rw [hexp]
        omega
    · intro h0
      have hsplit : total + p.toNat - 1 = (total - 1) + p.toNat := by omega
      rw [hsplit, Nat.add_div_right _ hnpos]
      have hle := Nat.div_mul_le_self (total - 1) p.toNat
      have hexp : ((total - 1) / p.toNat + 1 - 1) * p.toNat
          = (total - 1) / p.toNat * p.toNat := by
        rw [Nat.add_sub_cancel]
      rw [hexp]
      omega
  · intro p hp
    have hp0 : p ≠ 0 := hp.ne'
    have hdiv : (0 + p.toNat - 1) / p.toNat = 0 :=
      Nat.div_eq_of_lt (by omega)
    rw [totalPagesJs, if_neg hp0, if_pos hp, hdiv]
    rfl

/-- C9 (witness): the amended statement at `total = 10`, `pageSize = 0`
(no error, `Infinity`), at `pageSize = 3` (ceiling 4), and at the empty
table. -/
theorem totalPages_ceil_no_validation_witness :
    (dataTablePagination 10 0).isOk = true
    ∧ totalPagesJs 10 0 = JsNum.posInf
    ∧ (∃ q : Nat, totalPagesJs 10 3 = JsNum.fin (Int.ofNat q)
        ∧ 10 ≤ q * (3 : Int).toNat
        ∧ (0 < 10 → (q - 1) * (3 : Int).toNat < 10))
    ∧ totalPagesJs 0 3 = JsNum.fin 0 :=
  ⟨totalPages_ceil_no_validation.1 10 0,
    totalPages_ceil_no_validation.2.1 10 (by decide),
    totalPages_ceil_no_validation.2.2.1 10 3 (by decide),
    totalPages_ceil_no_validation.2.2.2 3 (by decide)⟩

/-- C10 (confirmed): the kanban board puts every task in exactly one column
bucket (the buckets concatenate to a permutation of the input), any status
outside the four known ones lands in `"To Do"`, and with the default column
list the column counts sum to the number of tasks. -/
theorem kanban_buckets_partition_and_count :
    ∀ (tasks : List Task) (s : String),
      Perm (flattenGroups (tasksByColumn tasks)) tasks
      ∧ (s ≠ "todo" → s ≠ "in-progress" → s ≠ "review" → s ≠ "done" →
          statusToColumn s = "To Do")
      ∧ (defaultColumns.map fun c => (columnTasks tasks c).length).sum
          = tasks.length := by
  intro tasks s
  refine ⟨flattenGroups_groupFold _ tasks, ?_, ?_⟩
  · intro h1 h2 h3 h4
    simp [statusToColumn, h1, h2, h3, h4]
  · have hchar : ∀ c ∈ defaultColumns, (columnTasks tasks c).length
        = (tasks.filter fun t =>
            decide (statusToColumn t.status = c)).length := by
      intro c _
      rw [columnTasks_filter]
    rw [List.map_congr_left hchar]
    refine sum_length_filter_by_key (fun t : Task => statusToColumn t.status)
      defaultColumns (by decide) tasks ?_
    intro t _
    simp only [statusToColumn]
    split_ifs <;> simp [defaultColumns]

/-- C10 (witness): the conjunction applied to a concrete one-task board and
the unknown status `"blocked"`. -/
theorem kanban_buckets_partition_and_count_witness :
    Perm (flattenGroups (tasksByColumn [taskNoDue])) [taskNoDue]
    ∧ statusToColumn "blocked" = "To Do"
    ∧ (defaultColumns.map fun c =>
        (columnTasks [taskNoDue] c).length).sum = 1 := by
  have h := kanban_buckets_partition_and_count [taskNoDue] "blocked"
  exact ⟨h.1, h.2.1 (by decide) (by decide) (by decide) (by decide),
    h.2.2⟩

example : jsToString (JValue.num 5) = "5" := by decide
example : jsToString (JValue.num (-7)) = "-7" := by decide
example : strToNumber "abc" = none := by decide
example : strToNumber " 42 " = some 42 := by decide
example : jsLt (JValue.num 5) (JValue.str "abc") = false := by decide
example : jsLt (JValue.str "5") (JValue.str "abc") = true := by decide
example : sortedData [[("k", JValue.str "b")], [("k", JValue.str "a")]]
    "k" SortDir.asc = [[("k", JValue.str "a")], [("k", JValue.str "b")]] := by
  decide
example : totalPagesJs 10 3 = JsNum.fin 4 := by decide
example : totalPagesJs 10 0 = JsNum.posInf := by decide
example : totalPagesJs 0 5 = JsNum.fin 0 := by decide
example : jsToLower "DESIGN" = "design" := by decide
example : jsTrim "  hi " = "hi" := by decide
example : strIncludes "design homepage" "design" = true := by decide
example : strIncludes "x" " " = false := by decide
example : getPriorityOrder "critical" = 999 := by decide
example : getStatusOrder "todo" = 999 := by decide
example : sortedGroupKeys ["critical", "high", "medium", "low"] "priority"
    = ["high", "medium", "low", "critical"] := by decide
example : sortedGroupKeys ["todo", "in-progress", "review", "done"] "status"
    = ["in-progress", "review", "done", "todo"] := by decide
example : isoDateKey "2024-01-01" = 20240101 := by decide
example : getTasksSort [taskWithDue, taskNoDue] "dueDate" "asc"
    = [taskNoDue, taskWithDue] := by decide
example : getTasksSort [taskWithDue, taskNoDue] "dueDate" "desc"
    = [taskWithDue, taskNoDue] := by decide
example : filterTasks [taskNoDue] "   " = [taskNoDue] := by decide
example : groupTasks [taskWithDue] "none" = [("All Tasks", [taskWithDue])] := by
  decide
example : tasksByColumn [taskWithDue, taskNoDue]
    = [("To Do", [taskWithDue, taskNoDue])] := by decide

end AIAssist
